import Mathlib

/-!
Verification of the ScamShield risk-assessment core.

The Python sources under `src/` are shallowly embedded: Python `str` values
become `List Char`, Python `int` becomes `Int`/`Nat`, Python `float` scores
become `ℚ` (exact rationals; the scores in all properties checked here are
sums of decimal constants, far from any binary-float edge case), Python
dictionaries of fixed shape become structures, and code that may raise is
given an `Except`/`Option` interface.  The external parsing libraries
(`urllib.parse`, `tldextract`) and the optional trained model are black
boxes to the core, so they enter the embedding as explicit inputs.
-/

/-- Python strings are embedded as lists of characters. -/
abbrev Str := List Char

/-- Conversion from a Lean string literal to the embedded string type. -/
def str (s : String) : Str := s.toList

/-- Python's substring test `needle in hay` on strings: some contiguous
run of `hay` equals `needle`. -/
def subInfix (needle : Str) : Str → Bool
  | [] => needle.isEmpty
  | c :: t => needle.isPrefixOf (c :: t) || subInfix needle t

/-- Python's `s.split(sep)` for a one-character separator: splits into the
(possibly empty) chunks between occurrences of `sep`. -/
def splitOnChar (sep : Char) : Str → List Str
  | [] => [[]]
  | c :: rest =>
    let r := splitOnChar sep rest
    if c = sep then [] :: r
    else
      match r with
      | h :: t => (c :: h) :: t
      | [] => [[c]]

/-- ASCII lower-casing of one character, the effect of Python's
`str.lower()` on the ASCII URLs handled here. -/
def asciiLower (c : Char) : Char :=
  if 'A' ≤ c ∧ c ≤ 'Z' then Char.ofNat (c.toNat + 32) else c

/-- Python's `url.lower()`. -/
def lowerStr (s : Str) : Str := s.map asciiLower

/-- Decimal digits of a natural number, for embedding Python f-string
interpolation of integers. -/
def natStr (n : Nat) : Str := (Nat.repr n).toList

/-- Decimal rendering of a Python integer. -/
def intStr (n : Int) : Str := (Int.repr n).toList

/-- Python's `round(x, 2)` on the exact rational value: round to the
nearest multiple of 1/100.  (Python rounds ties to even; no quantity this
development rounds ever sits at a tie, so nearest-rounding is exact.) -/
def round2 (q : ℚ) : ℚ := ((round (q * 100) : ℤ) : ℚ) / 100

/-- The four risk levels the system reports; embeds the string constants
"LOW" / "MEDIUM" / "HIGH" / "CRITICAL" of the sources. -/
inductive RiskLevel where
  | LOW
  | MEDIUM
  | HIGH
  | CRITICAL
deriving DecidableEq, Repr

/-- `get_risk_level` of `src/utils.py` lines 66-83; the private
`_get_risk_level` methods of `CallAnalyzer` (call_analyzer.py lines
269-278) and `SMSAnalyzer` (sms_analyzer.py lines 261-270) are identical
copies of the same conditional chain. -/
def getRiskLevel (risk_score : ℚ) : RiskLevel :=
  if risk_score ≥ 75 then .CRITICAL
  else if risk_score ≥ 50 then .HIGH
  else if risk_score ≥ 25 then .MEDIUM
  else .LOW

/-- `get_risk_color` of `src/utils.py` lines 86-102 (total on the embedded
`RiskLevel`, so the dictionary's default never fires). -/
def getRiskColor (risk_level : RiskLevel) : Str :=
  match risk_level with
  | .CRITICAL => str "#dc3545"
  | .HIGH => str "#fd7e14"
  | .MEDIUM => str "#ffc107"
  | .LOW => str "#28a745"

namespace CallAnalyzer

/-- `CallAnalyzer.RISKY_COUNTRY_CODES`, call_analyzer.py lines 18-28. -/
def RISKY_COUNTRY_CODES : List Str :=
  [str "+375", str "+371", str "+254", str "+234", str "+233",
   str "+880", str "+92", str "+62", str "+84"]

/-- The feature dictionary built by `CallAnalyzer._extract_features`
(call_analyzer.py lines 138-169); the 0/1 integers of the source are
booleans here. -/
structure CallFeatures where
  duration : Int
  call_frequency : Int
  is_unknown : Bool
  is_international : Bool
  is_risky_country : Bool
  very_short_call : Bool
  short_call : Bool
  normal_call : Bool
  long_call : Bool
  single_call : Bool
  repeated_calls : Bool
  excessive_calls : Bool
  has_repeated_digits : Bool
  has_sequential_digits : Bool
  number_length : Nat
  time_risk : Nat
  suspicious_time : Bool
  unknown_and_international : Bool
  short_and_repeated : Bool
deriving DecidableEq, Repr

/-- The number cleaning of call_analyzer.py line 109: strip spaces,
dashes and parentheses. -/
def cleanPhone (phone : Str) : Str :=
  phone.filter (fun c => !(c == ' ') && !(c == '-') && !(c == '(') && !(c == ')'))

/-- `CallAnalyzer._check_repeated_digits`, call_analyzer.py lines 254-260:
some digit occurs at least four times. -/
def checkRepeatedDigits (number : Str) : Bool :=
  let clean := number.filter (fun c => !(c == '+'))
  (str "0123456789").any (fun d => clean.count d ≥ 4)

/-- `CallAnalyzer._check_sequential_digits`, call_analyzer.py lines
262-267: one of fourteen fixed 4-digit runs appears as a substring. -/
def checkSequentialDigits (number : Str) : Bool :=
  let clean := number.filter (fun c => !(c == '+'))
  let sequences := [str "0123", str "1234", str "2345", str "3456", str "4567",
    str "5678", str "6789", str "3210", str "4321", str "5432", str "6543",
    str "7654", str "8765", str "9876"]
  sequences.any (fun seq => subInfix seq clean)

/-- `CallAnalyzer._extract_features`, call_analyzer.py lines 103-171.
The dead local `country_code` (computed but never stored) is omitted; the
`time_risk_map.get(time_of_day, 2)` lookup becomes the conditional chain
with default 2. -/
def extractFeatures (phone_number : Str) (duration : Int) (call_frequency : Int)
    (is_unknown : Bool) (time_of_day : Str) : CallFeatures :=
  let clean_number := cleanPhone phone_number
  let is_international :=
    (str "+").isPrefixOf clean_number ||
      (decide (clean_number.length > 10) && (str "00").isPrefixOf clean_number)
  let is_risky_country :=
    RISKY_COUNTRY_CODES.any (fun code => code.isPrefixOf clean_number)
  let has_repeated_digits := checkRepeatedDigits clean_number
  let has_sequential_digits := checkSequentialDigits clean_number
  let time_risk : Nat :=
    if time_of_day = str "early_morning" then 3
    else if time_of_day = str "business_hours" then 1
    else if time_of_day = str "evening" then 2
    else if time_of_day = str "night" then 3
    else 2
  { duration := duration
    call_frequency := call_frequency
    is_unknown := is_unknown
    is_international := is_international
    is_risky_country := is_risky_country
    very_short_call := decide (duration < 10)
    short_call := decide (10 ≤ duration ∧ duration < 30)
    normal_call := decide (30 ≤ duration ∧ duration < 300)
    long_call := decide (duration ≥ 300)
    single_call := decide (call_frequency = 1)
    repeated_calls := decide (call_frequency > 1)
    excessive_calls := decide (call_frequency > 5)
    has_repeated_digits := has_repeated_digits
    has_sequential_digits := has_sequential_digits
    number_length := clean_number.length
    time_risk := time_risk
    suspicious_time := decide (time_risk ≥ 3)
    unknown_and_international := is_unknown && is_international
    short_and_repeated := decide (duration < 30) && decide (call_frequency > 1) }

/-- `CallAnalyzer._calculate_rule_based_score`, call_analyzer.py lines
173-221: the sequential `score +=` accumulation, then `min(100, max(0, score))`. -/
def calculateRuleBasedScore (f : CallFeatures) : Int :=
  let score : Int := 0
  let score := if f.is_unknown then score + 20 else score
  let score := if f.unknown_and_international then score + 25 else score
  let score := if f.is_risky_country then score + 30 else score
  let score := if f.very_short_call then score + 15 else score
  let score :=
    if f.excessive_calls then score + 25
    else if f.repeated_calls then score + 10
    else score
  let score := if f.has_repeated_digits then score + 10 else score
  let score := if f.has_sequential_digits then score + 10 else score
  let score := if f.suspicious_time then score + 15 else score
  let score := if f.short_and_repeated then score + 20 else score
  let score := if f.normal_call && !f.is_unknown then score - 15 else score
  let score := if f.long_call then score - 10 else score
  min 100 (max 0 score)

/-- `CallAnalyzer._predict_with_model`, call_analyzer.py lines 223-252.
The backend (feature-vector assembly, the model's `predict_proba`/`predict`
and the `float(...)` conversion, all inside the `try`) is a black box whose
run is an `Except` value: a normal return yields the probability, any raise
yields `.error`, which the `except` arm maps to the rule-based score
divided by 100. -/
def predictWithModel (backend : Except Str ℚ) (f : CallFeatures) : ℚ :=
  match backend with
  | .ok prob => prob
  | .error _ => (calculateRuleBasedScore f : ℚ) / 100

/-- The score selection of `CallAnalyzer.analyze_call`, call_analyzer.py
lines 70-75: with a model configured the probability is scaled by 100,
otherwise the rule-based score is used. -/
def riskScoreStage (f : CallFeatures) (model : Option (Except Str ℚ)) : ℚ :=
  match model with
  | some backend => predictWithModel backend f * 100
  | none => (calculateRuleBasedScore f : ℚ)

/-- `CallAnalyzer._generate_explanation`, call_analyzer.py lines 280-313. -/
def generateExplanation (f : CallFeatures) : List Str :=
  let explanations : List Str :=
    (if f.is_unknown then [str "Number is not in your contacts"] else []) ++
    (if f.is_international then [str "International call"] else []) ++
    (if f.is_risky_country then [str "Call originates from high-risk country"] else []) ++
    (if f.very_short_call then [str "Very short call duration (possible robocall)"] else []) ++
    (if f.excessive_calls then
      [str "Excessive call frequency (" ++ intStr f.call_frequency ++ str " calls)"]
     else if f.repeated_calls then
      [str "Multiple calls from this number (" ++ intStr f.call_frequency ++ str " calls)"]
     else []) ++
    (if f.has_repeated_digits then [str "Number contains repeated digit patterns"] else []) ++
    (if f.has_sequential_digits then [str "Number contains sequential digits"] else []) ++
    (if f.suspicious_time then [str "Call at unusual time (late night/early morning)"] else [])
  if explanations.isEmpty then [str "No significant risk indicators detected"]
  else explanations

/-- `CallAnalyzer._get_recommendations`, call_analyzer.py lines 315-341. -/
def getRecommendations (risk_level : RiskLevel) (f : CallFeatures) : List Str :=
  (if risk_level = .CRITICAL ∨ risk_level = .HIGH then
    [str "Do NOT answer calls from this number",
     str "Block this number immediately",
     str "Do NOT call back",
     str "Report to your phone carrier or FTC"] ++
    (if f.is_international then
      [str "Enable international call blocking on your device"] else [])
   else if risk_level = .MEDIUM then
    [str "Exercise caution when answering",
     str "Do not provide personal information",
     str "Ask for caller credentials and verify independently",
     str "Consider blocking if they call repeatedly"]
   else
    [str "Call appears relatively safe",
     str "Still verify identity if they request sensitive information"]) ++
  [str "Never share passwords, PINs, or account numbers over the phone",
   str "Legitimate organizations will not pressure you for immediate action"]

/-- The result dictionary of `CallAnalyzer.analyze_call`, call_analyzer.py
lines 89-101. -/
structure CallResult where
  phone_number : Str
  duration : Int
  call_frequency : Int
  is_unknown : Bool
  is_international : Bool
  risk_score : ℚ
  risk_level : RiskLevel
  is_scam : Bool
  features : CallFeatures
  explanation : List Str
  recommendations : List Str
deriving DecidableEq, Repr

/-- `CallAnalyzer.analyze_call`, call_analyzer.py lines 46-101.  `model`
is the analyzer's optional backend; `is_scam` and `risk_level` come from
the unrounded score, the reported `risk_score` is rounded to 2 decimals. -/
def analyzeCall (phone_number : Str) (duration : Int) (call_frequency : Int)
    (is_unknown : Bool) (time_of_day : Str)
    (model : Option (Except Str ℚ)) : CallResult :=
  let features := extractFeatures phone_number duration call_frequency is_unknown time_of_day
  let risk_score := riskScoreStage features model
  let is_scam := decide (risk_score ≥ 50)
  let risk_level := getRiskLevel risk_score
  let explanation := generateExplanation features
  let recommendations := getRecommendations risk_level features
  { phone_number := phone_number
    duration := duration
    call_frequency := call_frequency
    is_unknown := is_unknown
    is_international := features.is_international
    risk_score := round2 risk_score
    risk_level := risk_level
    is_scam := is_scam
    features := features
    explanation := explanation
    recommendations := recommendations }

end CallAnalyzer

namespace URLChecker

/-- `URLChecker.URL_SHORTENERS`, url_checker.py lines 19-22. -/
def URL_SHORTENERS : List Str :=
  [str "bit.ly", str "tinyurl.com", str "goo.gl", str "ow.ly", str "t.co",
   str "is.gd", str "buff.ly", str "adf.ly", str "bit.do", str "short.link"]

/-- `URLChecker.SUSPICIOUS_KEYWORDS`, url_checker.py lines 25-30. -/
def SUSPICIOUS_KEYWORDS : List Str :=
  [str "verify", str "account", str "secure", str "update", str "confirm",
   str "login", str "banking", str "password", str "suspend", str "limited",
   str "unusual", str "click", str "urgent", str "alert", str "winner",
   str "prize", str "reward", str "free", str "claim", str "refund",
   str "tax", str "gov", str "paypal", str "amazon"]

/-- `URLChecker.TRUSTED_DOMAINS`, url_checker.py lines 33-37. -/
def TRUSTED_DOMAINS : List Str :=
  [str "google.com", str "facebook.com", str "amazon.com", str "apple.com",
   str "microsoft.com", str "linkedin.com", str "twitter.com",
   str "instagram.com", str "youtube.com", str "wikipedia.org",
   str "github.com"]

/-- The risky TLD list of url_checker.py line 134, already stripped of the
leading dot the source removes with `tld.strip('.')` before the
`endswith` comparison. -/
def RISKY_TLDS : List Str :=
  [str "tk", str "ml", str "ga", str "cf", str "gq", str "xyz", str "top"]

/-- What `urllib.parse.urlparse` and `tldextract.extract` (external
libraries, black boxes to this repository) return for the
scheme-defaulted URL: the fields of both parses that `analyze_url`
reads.  `query_param_count` is `len(parse_qs(parsed.query))`. -/
structure ParsedURL where
  scheme : Str
  netloc : Str
  path : Str
  query_param_count : Nat
  port : Option Nat
  subdomain : Str
  domain : Str
  suffix : Str
deriving DecidableEq, Repr

/-- The scheme defaulting of url_checker.py lines 56-58: a URL without an
`http://` or `https://` scheme gets `http://` put in front. -/
def defaultScheme (url : Str) : Str :=
  if (str "http://").isPrefixOf url || (str "https://").isPrefixOf url then url
  else str "http://" ++ url

/-- `URLChecker._is_ip_address`, url_checker.py lines 181-195: the part of
the netloc before the first colon either matches the IPv4 regex
`^(\d\x7b1,3\x7d\.)\x7b3\x7d\d\x7b1,3\x7d$` or passes the IPv6 test
(contains both a colon and an opening bracket). -/
def isIpAddress (netloc : Str) : Bool :=
  let host := netloc.takeWhile (fun c => !(c == ':'))
  let parts := splitOnChar '.' host
  (decide (parts.length = 4) &&
    parts.all (fun p =>
      decide (1 ≤ p.length) && decide (p.length ≤ 3) && p.all Char.isDigit)) ||
  (host.contains ':' && host.contains '[')

/-- `URLChecker._is_url_shortener`, url_checker.py lines 197-199. -/
def isUrlShortener (domain : Str) : Bool := URL_SHORTENERS.contains domain

/-- `URLChecker._is_trusted_domain`, url_checker.py lines 201-203. -/
def isTrustedDomain (domain : Str) : Bool := TRUSTED_DOMAINS.contains domain

/-- `URLChecker._check_suspicious_keywords`, url_checker.py lines 205-211:
the suspicious keywords occurring in the lower-cased URL, in keyword-list
order. -/
def checkSuspiciousKeywords (url : Str) : List Str :=
  SUSPICIOUS_KEYWORDS.filter (fun keyword => subInfix keyword url)

/-- The `risk_score` accumulation of `URLChecker.analyze_url`,
url_checker.py lines 53-140, as a function of the raw URL and the parse of
its scheme-defaulted form.  The factor-string accumulation (which never
feeds back into the score) is split into `urlRiskFactorsOf` below; the
conditions and the order of the score updates are exactly the source's,
including the trusted-domain step `risk_score = max(0, risk_score - 30)`
sitting between the shortener check and the keyword check. -/
def urlRiskScoreOf (url₀ : Str) (p : ParsedURL) : Int :=
  let url := defaultScheme url₀
  let domain := p.domain ++ str "." ++ p.suffix
  let score : Int := 0
  let score := if isIpAddress p.netloc then score + 30 else score
  let score := if !(p.scheme == str "https") then score + 15 else score
  let score := if isUrlShortener domain then score + 25 else score
  let score := if isTrustedDomain domain then max 0 (score - 30) else score
  let suspicious_found := checkSuspiciousKeywords (lowerStr url)
  let score :=
    if !suspicious_found.isEmpty then score + (suspicious_found.length : Int) * 10
    else score
  let score := if p.netloc.length > 40 then score + 15 else score
  let subdomains := if !p.subdomain.isEmpty then splitOnChar '.' p.subdomain else []
  let score := if subdomains.length > 2 then score + 20 else score
  let score := if url.contains '@' then score + 35 else score
  let score := if p.netloc.count '-' > 2 then score + 15 else score
  let score := if p.domain.any Char.isDigit then score + 10 else score
  let score := if p.path.length > 100 then score + 10 else score
  let score := if p.query_param_count > 5 then score + 15 else score
  let score :=
    match p.port with
    | some port =>
      if decide (port ≠ 0) && !(port == 80) && !(port == 443) then score + 20 else score
    | none => score
  let score :=
    if RISKY_TLDS.any (fun tld => tld.isSuffixOf p.suffix) then score + 25 else score
  min 100 score

/-- The `risk_factors` accumulation of `URLChecker.analyze_url`,
url_checker.py lines 53-140: one fixed string appended per triggered
check, in check order, with the source's f-string interpolations. -/
def urlRiskFactorsOf (url₀ : Str) (p : ParsedURL) : List Str :=
  let url := defaultScheme url₀
  let domain := p.domain ++ str "." ++ p.suffix
  let suspicious_found := checkSuspiciousKeywords (lowerStr url)
  let subdomains := if !p.subdomain.isEmpty then splitOnChar '.' p.subdomain else []
  (if isIpAddress p.netloc then [str "Uses IP address instead of domain name"] else []) ++
  (if !(p.scheme == str "https") then [str "Not using secure HTTPS protocol"] else []) ++
  (if isUrlShortener domain then [str "Uses URL shortening service (hides destination)"] else []) ++
  (if isTrustedDomain domain then [str "Domain is on trusted list"] else []) ++
  (if !suspicious_found.isEmpty then
    [str "Contains suspicious keywords: " ++ (List.intercalate (str ", ") suspicious_found)]
   else []) ++
  (if p.netloc.length > 40 then [str "Unusually long domain name"] else []) ++
  (if subdomains.length > 2 then
    [str "Multiple subdomains detected (" ++ natStr subdomains.length ++ str ")"] else []) ++
  (if url.contains '@' then [str "Contains @ symbol (potential domain masking)"] else []) ++
  (if p.netloc.count '-' > 2 then [str "Excessive hyphens in domain"] else []) ++
  (if p.domain.any Char.isDigit then [str "Contains numbers in domain name"] else []) ++
  (if p.path.length > 100 then [str "Unusually long URL path"] else []) ++
  (if p.query_param_count > 5 then
    [str "Many query parameters (" ++ natStr p.query_param_count ++ str ")"] else []) ++
  (match p.port with
   | some port =>
     if decide (port ≠ 0) && !(port == 80) && !(port == 443) then
       [str "Uses non-standard port: " ++ natStr port]
     else []
   | none => []) ++
  (if RISKY_TLDS.any (fun tld => tld.isSuffixOf p.suffix) then
    [str "Uses risky top-level domain (." ++ p.suffix ++ str ")"] else [])

/-- The result dictionary of `URLChecker.analyze_url`, url_checker.py
lines 142-153. -/
structure URLResult where
  url : Str
  domain : Str
  subdomain : Str
  tld : Str
  is_https : Bool
  is_shortened : Bool
  is_trusted : Bool
  risk_score : Int
  risk_factors : List Str
  is_suspicious : Bool
deriving DecidableEq, Repr

/-- `URLChecker.analyze_url`, url_checker.py lines 43-153, over the raw
URL and the parse (by the external libraries) of its scheme-defaulted
form. -/
def analyzeUrlWith (url₀ : Str) (p : ParsedURL) : URLResult :=
  let url := defaultScheme url₀
  let domain := p.domain ++ str "." ++ p.suffix
  let risk_score := urlRiskScoreOf url₀ p
  { url := url
    domain := domain
    subdomain := p.subdomain
    tld := p.suffix
    is_https := p.scheme == str "https"
    is_shortened := isUrlShortener domain
    is_trusted := isTrustedDomain domain
    risk_score := risk_score
    risk_factors := urlRiskFactorsOf url₀ p
    is_suspicious := decide (risk_score ≥ 50) }

/-- One entry of the list `analyze_multiple_urls` returns: either the full
per-URL result, or the substitute dictionary of url_checker.py lines
172-177 built in the `except` arm. -/
inductive UrlBatchItem where
  | success (result : URLResult)
  | failure (url : Str) (error : Str) (risk_score : Int) (is_suspicious : Bool)
deriving DecidableEq, Repr

/-- `URLChecker.analyze_multiple_urls`, url_checker.py lines 155-179.  The
per-item `try: analyze_url(url)` is abstracted as a fallible function
`analyzeOne` (in the source the raise can come from the external URL
parsing, e.g. an invalid port); the `except` arm substitutes the fixed
dictionary with `risk_score = 50` and `is_suspicious = True`. -/
def analyzeMultipleUrls (analyzeOne : Str → Except Str URLResult)
    (urls : List Str) : List UrlBatchItem :=
  urls.map (fun url =>
    match analyzeOne url with
    | .ok result => .success result
    | .error e => .failure url e 50 true)

end URLChecker

namespace SMSAnalyzer

/-- The feature dictionary built by `SMSAnalyzer._extract_features` plus
the URL aggregates `analyze_message` adds (sms_analyzer.py lines 95-110
and 147-178); booleans replace the source's truthy values, the
text-derived ratio is an exact rational. -/
structure MessageFeatures where
  length : Nat
  word_count : Nat
  exclamation_count : Nat
  question_count : Nat
  uppercase_ratio : ℚ
  digit_count : Nat
  sender_is_numeric : Bool
  sender_is_shortcode : Bool
  scam_keyword_count : Nat
  legitimate_keyword_count : Nat
  has_urgency : Bool
  requests_action : Bool
  mentions_money : Bool
  mentions_account : Bool
  has_threat : Bool
  has_urls : Bool
  url_count : Nat
  avg_url_risk : ℚ
deriving DecidableEq, Repr

/-- `SMSAnalyzer._calculate_rule_based_score`, sms_analyzer.py lines
180-227: the sequential accumulation, then `min(100, max(0, score))`.
The `message_text` parameter is accepted and, as in the source, never
read.  Python truthiness of `legitimate_keyword_count` becomes the
comparison with zero; the float literals 0.4 and 0.3 are the exact
rationals 4/10 and 3/10. -/
def calculateRuleBasedScore (f : MessageFeatures) (message_text : Str) : ℚ :=
  let score : ℚ := 0
  let score := if f.has_urls then score + f.avg_url_risk * (4 / 10) else score
  let score := score + ((min (f.scam_keyword_count * 10) 30 : ℕ) : ℚ)
  let score := if f.has_urgency then score + 15 else score
  let score := if f.requests_action then score + 10 else score
  let score := if f.mentions_money then score + 15 else score
  let score := if f.mentions_account then score + 12 else score
  let score := if f.has_threat then score + 20 else score
  let score := if f.exclamation_count > 2 then score + 10 else score
  let score := if f.uppercase_ratio > 3 / 10 then score + 10 else score
  let score :=
    if f.sender_is_shortcode ∧ f.legitimate_keyword_count = 0 then score + 10 else score
  let score := if f.legitimate_keyword_count > 0 then score - 20 else score
  min 100 (max 0 score)

/-- `SMSAnalyzer._predict_with_model`, sms_analyzer.py lines 229-259.
As for the call analyzer, the backend run is an `Except` value; the
`except` arm calls the rule-based scorer with an empty message text and
divides by 100. -/
def predictWithModel (backend : Except Str ℚ) (f : MessageFeatures) : ℚ :=
  match backend with
  | .ok prob => prob
  | .error _ => calculateRuleBasedScore f [] / 100

/-- The score selection of `SMSAnalyzer.analyze_message`, sms_analyzer.py
lines 112-119. -/
def riskScoreStage (f : MessageFeatures) (message_text : Str)
    (model : Option (Except Str ℚ)) : ℚ :=
  match model with
  | some backend => predictWithModel backend f * 100
  | none => calculateRuleBasedScore f message_text

/-- The verdict fields `analyze_message` derives from the score,
sms_analyzer.py lines 121-125 and 136-138: the rounded reported score,
the scam flag (from the unrounded score) and the risk level (from the
unrounded score). -/
structure SMSVerdictCore where
  risk_score : ℚ
  risk_level : RiskLevel
  is_scam : Bool
deriving DecidableEq, Repr

/-- The score-to-verdict fragment of `SMSAnalyzer.analyze_message`,
sms_analyzer.py lines 112-138, over an already-extracted feature set
(the text statistics and per-URL analyses feeding the features are the
extraction stage, which every feature set here quantifies over). -/
def verdictCore (f : MessageFeatures) (message_text : Str)
    (model : Option (Except Str ℚ)) : SMSVerdictCore :=
  let risk_score := riskScoreStage f message_text model
  { risk_score := round2 risk_score
    risk_level := getRiskLevel risk_score
    is_scam := decide (risk_score ≥ 50) }

end SMSAnalyzer

namespace RiskEngine

/-- The fields of a domain verdict that `assess_overall_risk` reads
(risk_engine.py lines 42-52): its score, explanation list and
recommendation list. -/
structure RVerdict where
  risk_score : ℚ
  explanation : List Str
  recommendations : List Str
deriving DecidableEq, Repr

/-- Python's `list(dict.fromkeys(lst))` (risk_engine.py line 72):
insertion-ordered dictionary keys, so each string is kept at its first
occurrence and later duplicates are dropped. -/
def dedupFromKeys (l : List Str) : List Str :=
  l.foldl (fun acc x => if x ∈ acc then acc else acc ++ [x]) []

/-- The assessment dictionary `assess_overall_risk` returns
(risk_engine.py lines 54-61 and 74-83).  `risk_color` is `none` in the
zero-input branch, whose dictionary has no such key; the echoed
`call_analysis`/`sms_analysis` references are the function's own inputs
and are not repeated here. -/
structure OverallAssessment where
  overall_risk_score : ℚ
  risk_level : RiskLevel
  risk_color : Option Str
  risk_sources : List Str
  explanation : List Str
  recommendations : List Str
deriving DecidableEq, Repr

/-- `RiskEngine.assess_overall_risk`, risk_engine.py lines 25-83.  The
`len(risk_scores) == 2` test of line 64 is the two-element match; with
0, 1 or 2 optional inputs the score list never has another length with
both elements present. -/
def assessOverallRisk (call_result sms_result : Option RVerdict) : OverallAssessment :=
  let risk_scores :=
    (match call_result with | some c => [c.risk_score] | none => []) ++
    (match sms_result with | some s => [s.risk_score] | none => [])
  let risk_sources :=
    (match call_result with | some _ => [str "call"] | none => []) ++
    (match sms_result with | some _ => [str "sms"] | none => [])
  let all_explanations :=
    (match call_result with
     | some c => c.explanation.map (fun e => str "Call: " ++ e)
     | none => []) ++
    (match sms_result with
     | some s => s.explanation.map (fun e => str "SMS: " ++ e)
     | none => [])
  let all_recommendations :=
    (match call_result with | some c => c.recommendations | none => []) ++
    (match sms_result with | some s => s.recommendations | none => [])
  if risk_scores.isEmpty then
    { overall_risk_score := 0
      risk_level := .LOW
      risk_color := none
      risk_sources := []
      explanation := []
      recommendations := [] }
  else
    let overall_score :=
      match risk_scores with
      | [a, b] => a * (45 / 100) + b * (55 / 100)
      | l => l.sum / (l.length : ℚ)
    let risk_level := getRiskLevel overall_score
    let unique_recommendations := dedupFromKeys all_recommendations
    { overall_risk_score := round2 overall_score
      risk_level := risk_level
      risk_color := some (getRiskColor risk_level)
      risk_sources := risk_sources
      explanation := all_explanations
      recommendations := unique_recommendations.take 8 }

end RiskEngine

namespace URLChecker

/-- The three score additions of `analyze_url` that precede the
trusted-domain reduction (url_checker.py lines 64-78): IP-address host,
non-HTTPS scheme, URL shortener. -/
def urlEarlyScore (p : ParsedURL) : Int :=
  (if isIpAddress p.netloc then (30 : Int) else 0) +
  (if !(p.scheme == str "https") then 15 else 0) +
  (if isUrlShortener (p.domain ++ str "." ++ p.suffix) then 25 else 0)

/-- The ten score additions of `analyze_url` that follow the
trusted-domain reduction (url_checker.py lines 85-137): keywords, long
netloc, subdomains, `@`, hyphens, digit in domain, long path, query
parameters, non-standard port, risky TLD. -/
def urlLateScore (url₀ : Str) (p : ParsedURL) : Int :=
  let url := defaultScheme url₀
  let suspicious_found := checkSuspiciousKeywords (lowerStr url)
  let subdomains := if !p.subdomain.isEmpty then splitOnChar '.' p.subdomain else []
  (if !suspicious_found.isEmpty then (suspicious_found.length : Int) * 10 else 0) +
  (if p.netloc.length > 40 then 15 else 0) +
  (if subdomains.length > 2 then 20 else 0) +
  (if url.contains '@' then 35 else 0) +
  (if p.netloc.count '-' > 2 then 15 else 0) +
  (if p.domain.any Char.isDigit then 10 else 0) +
  (if p.path.length > 100 then 10 else 0) +
  (if p.query_param_count > 5 then 15 else 0) +
  (match p.port with
   | some port =>
     if decide (port ≠ 0) && !(port == 80) && !(port == 443) then (20 : Int) else 0
   | none => 0) +
  (if RISKY_TLDS.any (fun tld => tld.isSuffixOf p.suffix) then 25 else 0)

/-- The URL "http://google.com/login": a trusted domain that also
triggers score additions after the trusted-domain reduction (the
suspicious keyword "login"). -/
def trustedKeywordURL : Str := str "http://google.com/login"

/-- What `urlparse`/`tldextract` return for "http://google.com/login". -/
def trustedKeywordParse : ParsedURL :=
  { scheme := str "http"
    netloc := str "google.com"
    path := str "/login"
    query_param_count := 0
    port := none
    subdomain := []
    domain := str "google"
    suffix := str "com" }

/-- The URL of the spec's regression fixture,
"http://secure-banking-verify.tk/account". -/
def bankingURL : Str := str "http://secure-banking-verify.tk/account"

/-- What `urlparse`/`tldextract` return for
"http://secure-banking-verify.tk/account". -/
def bankingParse : ParsedURL :=
  { scheme := str "http"
    netloc := str "secure-banking-verify.tk"
    path := str "/account"
    query_param_count := 0
    port := none
    subdomain := []
    domain := str "secure-banking-verify"
    suffix := str "tk" }

end URLChecker

namespace RiskEngine

/-- The claim's description of the recommendation merge, as its own
definition: keep each string's first occurrence, drop every later
duplicate. -/
def keepFirstOccurrences {α : Type*} [DecidableEq α] : List α → List α
  | [] => []
  | x :: xs => x :: keepFirstOccurrences (xs.filter (fun y => y ≠ x))
termination_by l => l.length
decreasing_by
  simp only [List.length_cons]
  exact Nat.lt_succ_of_le (List.length_filter_le _ _)

end RiskEngine

section RiskLevelLemmas

lemma getRiskLevel_eq_CRITICAL_iff (s : ℚ) : getRiskLevel s = .CRITICAL ↔ 75 ≤ s := by
  unfold getRiskLevel
  split_ifs with h1 h2 h3 <;> simp_all <;> (try intro h) <;> linarith

lemma getRiskLevel_eq_HIGH_iff (s : ℚ) : getRiskLevel s = .HIGH ↔ 50 ≤ s ∧ s < 75 := by
  unfold getRiskLevel
  split_ifs with h1 h2 h3 <;> simp_all <;> (try intro h) <;> linarith

lemma getRiskLevel_eq_MEDIUM_iff (s : ℚ) : getRiskLevel s = .MEDIUM ↔ 25 ≤ s ∧ s < 50 := by
  unfold getRiskLevel
  split_ifs with h1 h2 h3 <;> simp_all <;> (try intro h) <;> linarith

lemma getRiskLevel_eq_LOW_iff (s : ℚ) : getRiskLevel s = .LOW ↔ s < 25 := by
  unfold getRiskLevel
  split_ifs with h1 h2 h3 <;> simp_all <;> (try intro h) <;> linarith

lemma getRiskLevel_high_or_critical_iff (s : ℚ) :
    (getRiskLevel s = .HIGH ∨ getRiskLevel s = .CRITICAL) ↔ 50 ≤ s := by
  rw [getRiskLevel_eq_HIGH_iff, getRiskLevel_eq_CRITICAL_iff]
  constructor
  · rintro (⟨h, _⟩ | h) <;> linarith
  · intro h
    rcases lt_or_le s 75 with h75 | h75
    · exact Or.inl ⟨h, h75⟩
    · exact Or.inr h75

lemma getRiskLevel_low_or_medium_iff (s : ℚ) :
    (getRiskLevel s = .LOW ∨ getRiskLevel s = .MEDIUM) ↔ s < 50 := by
  rw [getRiskLevel_eq_LOW_iff, getRiskLevel_eq_MEDIUM_iff]
  constructor
  · rintro (h | ⟨_, h⟩) <;> linarith
  · intro h
    rcases lt_or_le s 25 with h25 | h25
    · exact Or.inl h25
    · exact Or.inr ⟨h25, h⟩

/-- `round(x, 2)` is the identity on integer-valued scores, in particular
on every rule-based score. -/
lemma round2_intCast (n : ℤ) : round2 ((n : ℚ)) = (n : ℚ) := by
  unfold round2
  have h : ((n : ℚ)) * 100 = ((n * 100 : ℤ) : ℚ) := by push_cast; ring
  rw [h, round_intCast]
  push_cast
  ring

end RiskLevelLemmas

/-- C1.  For every risk score produced by either domain scorer, the risk
level is the step function with breakpoints exactly at 25, 50 and 75
(score ≥ 75 gives CRITICAL, ≥ 50 gives HIGH, ≥ 25 gives MEDIUM, else
LOW), the `is_scam` flag of the returned verdict holds iff that score is
≥ 50, and the two are consistent: LOW/MEDIUM means not scam, HIGH/CRITICAL
means scam.  Stated for the shared risk-level map, for the call scorer's
verdict and for the message scorer's verdict, over every input (and every
behaviour of an optional scoring backend). -/
theorem risk_level_step_and_is_scam_consistency :
    (∀ s : ℚ,
      (getRiskLevel s = .CRITICAL ↔ 75 ≤ s) ∧
      (getRiskLevel s = .HIGH ↔ 50 ≤ s ∧ s < 75) ∧
      (getRiskLevel s = .MEDIUM ↔ 25 ≤ s ∧ s < 50) ∧
      (getRiskLevel s = .LOW ↔ s < 25)) ∧
    (∀ (phone : Str) (dur freq : Int) (unk : Bool) (tod : Str)
        (model : Option (Except Str ℚ)),
      (CallAnalyzer.analyzeCall phone dur freq unk tod model).is_scam = true ↔
        50 ≤ CallAnalyzer.riskScoreStage
          (CallAnalyzer.extractFeatures phone dur freq unk tod) model) ∧
    (∀ (phone : Str) (dur freq : Int) (unk : Bool) (tod : Str)
        (model : Option (Except Str ℚ)),
      (CallAnalyzer.analyzeCall phone dur freq unk tod model).risk_level =
        getRiskLevel (CallAnalyzer.riskScoreStage
          (CallAnalyzer.extractFeatures phone dur freq unk tod) model)) ∧
    (∀ (phone : Str) (dur freq : Int) (unk : Bool) (tod : Str)
        (model : Option (Except Str ℚ)),
      ((CallAnalyzer.analyzeCall phone dur freq unk tod model).is_scam = true ↔
        ((CallAnalyzer.analyzeCall phone dur freq unk tod model).risk_level = .HIGH ∨
         (CallAnalyzer.analyzeCall phone dur freq unk tod model).risk_level = .CRITICAL)) ∧
       ((CallAnalyzer.analyzeCall phone dur freq unk tod model).is_scam = false ↔
        ((CallAnalyzer.analyzeCall phone dur freq unk tod model).risk_level = .LOW ∨
         (CallAnalyzer.analyzeCall phone dur freq unk tod model).risk_level = .MEDIUM))) ∧
    (∀ (f : SMSAnalyzer.MessageFeatures) (text : Str)
        (model : Option (Except Str ℚ)),
      ((SMSAnalyzer.verdictCore f text model).is_scam = true ↔
        50 ≤ SMSAnalyzer.riskScoreStage f text model) ∧
      (SMSAnalyzer.verdictCore f text model).risk_level =
        getRiskLevel (SMSAnalyzer.riskScoreStage f text model) ∧
      ((SMSAnalyzer.verdictCore f text model).is_scam = true ↔
        ((SMSAnalyzer.verdictCore f text model).risk_level = .HIGH ∨
         (SMSAnalyzer.verdictCore f text model).risk_level = .CRITICAL)) ∧
      ((SMSAnalyzer.verdictCore f text model).is_scam = false ↔
        ((SMSAnalyzer.verdictCore f text model).risk_level = .LOW ∨
         (SMSAnalyzer.verdictCore f text model).risk_level = .MEDIUM))) := by
  refine ⟨?_, ?_, ?_, ?_, ?_⟩
  · intro s
    exact ⟨getRiskLevel_eq_CRITICAL_iff s, getRiskLevel_eq_HIGH_iff s,
      getRiskLevel_eq_MEDIUM_iff s, getRiskLevel_eq_LOW_iff s⟩
  · intro phone dur freq unk tod model
    simp [CallAnalyzer.analyzeCall]
  · intro phone dur freq unk tod model
    simp [CallAnalyzer.analyzeCall]
  · intro phone dur freq unk tod model
    constructor
    · simp [CallAnalyzer.analyzeCall, getRiskLevel_high_or_critical_iff]
    · simp [CallAnalyzer.analyzeCall, getRiskLevel_low_or_medium_iff, not_le]
  · intro f text model
    refine ⟨?_, ?_, ?_, ?_⟩
    · simp [SMSAnalyzer.verdictCore]
    · simp [SMSAnalyzer.verdictCore]
    · simp [SMSAnalyzer.verdictCore, getRiskLevel_high_or_critical_iff]
    · simp [SMSAnalyzer.verdictCore, getRiskLevel_low_or_medium_iff, not_le]

lemma ite_add_shift {α : Type*} [AddZeroClass α] (c : Prop) [Decidable c] (x a : α) :
    (if c then x + a else x) = x + (if c then a else 0) := by
  split <;> simp

lemma ite_sub_shift {α : Type*} [SubtractionMonoid α] (c : Prop) [Decidable c] (x a : α) :
    (if c then x - a else x) = x - (if c then a else 0) := by
  split <;> simp

/-- C4.  For every message feature set, the message scorer's rule-based
score equals 0, plus `avg_url_risk * 0.4` if URLs are present, plus
`min(scam_keyword_count * 10, 30)`, plus 15 for urgency, 10 for an action
request, 15 for a money mention, 12 for an account mention, 20 for a
threat, 10 if the exclamation count exceeds 2, 10 if the uppercase ratio
exceeds 0.3, 10 if the sender is short-code-shaped and no legitimacy
keyword matched, minus 20 if any legitimacy keyword matched, clamped to
[0, 100]. -/
theorem sms_rule_based_score_formula :
    ∀ (f : SMSAnalyzer.MessageFeatures) (text : Str),
      SMSAnalyzer.calculateRuleBasedScore f text =
        min 100 (max 0 (
          (if f.has_urls then f.avg_url_risk * (4 / 10) else 0) +
          ((min (f.scam_keyword_count * 10) 30 : ℕ) : ℚ) +
          (if f.has_urgency then 15 else 0) +
          (if f.requests_action then 10 else 0) +
          (if f.mentions_money then 15 else 0) +
          (if f.mentions_account then 12 else 0) +
          (if f.has_threat then 20 else 0) +
          (if f.exclamation_count > 2 then 10 else 0) +
          (if f.uppercase_ratio > 3 / 10 then 10 else 0) +
          (if f.sender_is_shortcode ∧ f.legitimate_keyword_count = 0 then 10 else 0) -
          (if f.legitimate_keyword_count > 0 then 20 else 0))) := by
  intro f text
  simp only [SMSAnalyzer.calculateRuleBasedScore, ite_add_shift, ite_sub_shift, zero_add]

lemma div100_mul100 (q : ℚ) : q / 100 * 100 = q := by
  rw [div_mul_cancel₀]
  norm_num

lemma call_riskScoreStage_error (f : CallAnalyzer.CallFeatures) (e : Str) :
    CallAnalyzer.riskScoreStage f (some (.error e)) =
      ((CallAnalyzer.calculateRuleBasedScore f : Int) : ℚ) := by
  simp only [CallAnalyzer.riskScoreStage, CallAnalyzer.predictWithModel, div100_mul100]

lemma sms_riskScoreStage_error (f : SMSAnalyzer.MessageFeatures) (text e : Str) :
    SMSAnalyzer.riskScoreStage f text (some (.error e)) =
      SMSAnalyzer.calculateRuleBasedScore f text := by
  simp only [SMSAnalyzer.riskScoreStage, SMSAnalyzer.predictWithModel, div100_mul100]
  rfl

/-- C6.  Whenever the scoring backend raises (modelled as the backend run
yielding an error), the call scorer returns exactly the verdict of the
rule-based computation on the same features — its risk score is the
rule-based score (already on the 0-100 scale) and the whole result equals
the no-backend result, so no error reaches the caller; the message
scorer's score stage behaves the same way. -/
theorem backend_failure_falls_back_to_rule_based :
    (∀ (phone : Str) (dur freq : Int) (unk : Bool) (tod : Str) (e : Str),
      CallAnalyzer.analyzeCall phone dur freq unk tod (some (.error e)) =
        CallAnalyzer.analyzeCall phone dur freq unk tod none ∧
      (CallAnalyzer.analyzeCall phone dur freq unk tod (some (.error e))).risk_score =
        ((CallAnalyzer.calculateRuleBasedScore
            (CallAnalyzer.extractFeatures phone dur freq unk tod) : Int) : ℚ)) ∧
    (∀ (f : SMSAnalyzer.MessageFeatures) (text : Str) (e : Str),
      SMSAnalyzer.riskScoreStage f text (some (.error e)) =
        SMSAnalyzer.calculateRuleBasedScore f text ∧
      SMSAnalyzer.verdictCore f text (some (.error e)) =
        SMSAnalyzer.verdictCore f text none) := by
  constructor
  · intro phone dur freq unk tod e
    constructor
    · simp only [CallAnalyzer.analyzeCall, CallAnalyzer.riskScoreStage,
        CallAnalyzer.predictWithModel, div100_mul100]
    · simp only [CallAnalyzer.analyzeCall, call_riskScoreStage_error]
      exact round2_intCast _
  · intro f text e
    constructor
    · exact sms_riskScoreStage_error f text e
    · simp only [SMSAnalyzer.verdictCore, SMSAnalyzer.riskScoreStage,
        SMSAnalyzer.predictWithModel, div100_mul100]
      rfl

/-- C7.  The URL batch operation returns one entry per input URL in input
order; entry `i` is determined by URL `i` alone — the single-URL result
when its analysis succeeds, and the substitute entry with risk score 50,
suspicious flag set and the error marker when it fails — so one failing
URL never affects or aborts the other URLs' results.  (Totality of the
embedded function is Lean's guarantee that the batch itself never
raises.) -/
theorem url_batch_per_item_isolation :
    ∀ (analyzeOne : Str → Except Str URLChecker.URLResult) (urls : List Str),
      (URLChecker.analyzeMultipleUrls analyzeOne urls).length = urls.length ∧
      ∀ i : Nat,
        (URLChecker.analyzeMultipleUrls analyzeOne urls)[i]? =
          (urls[i]?).map (fun url =>
            match analyzeOne url with
            | .ok result => URLChecker.UrlBatchItem.success result
            | .error e => URLChecker.UrlBatchItem.failure url e 50 true) := by
  intro analyzeOne urls
  constructor
  · simp [URLChecker.analyzeMultipleUrls]
  · intro i
    simp [URLChecker.analyzeMultipleUrls]

/-- C2 counterexample.  For the trusted-domain URL
"http://google.com/login", which also triggers a later additive signal
(the suspicious keyword "login", found after the trusted-domain step),
the analyzer's final risk score is 10 — the non-HTTPS +15 is cancelled by
the reduction (floored at 0) and the keyword +10 lands afterwards —
whereas the claim's formula "sum of all additions minus 30, floored at
zero" gives max(0, 15 + 10 − 30) = 0.  So the trusted-domain reduction is
not applied after all other additions and the final score is not the
claimed order-independent value. -/
theorem trusted_reduction_not_last_counterexample :
    (URLChecker.analyzeUrlWith URLChecker.trustedKeywordURL
        URLChecker.trustedKeywordParse).risk_score = 10 ∧
    URLChecker.isTrustedDomain
      (URLChecker.trustedKeywordParse.domain ++ str "." ++
        URLChecker.trustedKeywordParse.suffix) = true ∧
    URLChecker.checkSuspiciousKeywords
      (lowerStr (URLChecker.defaultScheme URLChecker.trustedKeywordURL)) =
      [str "login"] ∧
    max 0 (URLChecker.urlEarlyScore URLChecker.trustedKeywordParse +
      URLChecker.urlLateScore URLChecker.trustedKeywordURL
        URLChecker.trustedKeywordParse - 30) = 0 ∧
    (10 : Int) ≠ 0 := by
  decide

/-- C2 as amended.  The trusted-domain reduction (subtract 30, floored at
zero) is applied after the IP-address, non-HTTPS and shortener additions
but before the remaining ten additions (keywords, netloc length,
subdomains, `@`, hyphens, digit in domain, path length, query parameters,
port, risky TLD): for every URL the final risk score equals the late
additions plus — when the domain is trusted — max(0, early additions −
30), all clamped to at most 100.  Within each of the two groups the value
is order-independent (each group enters as a plain sum). -/
theorem trusted_reduction_after_early_checks :
    ∀ (url₀ : Str) (p : URLChecker.ParsedURL),
      (URLChecker.analyzeUrlWith url₀ p).risk_score =
        min 100
          ((if URLChecker.isTrustedDomain (p.domain ++ str "." ++ p.suffix) then
              max 0 (URLChecker.urlEarlyScore p - 30)
            else URLChecker.urlEarlyScore p) +
           URLChecker.urlLateScore url₀ p) := by
  intro url₀ p
  obtain ⟨scheme, netloc, path, qc, port, sub, dom, suf⟩ := p
  rcases port with _ | port <;>
    simp only [URLChecker.analyzeUrlWith, URLChecker.urlRiskScoreOf,
      URLChecker.urlEarlyScore, URLChecker.urlLateScore, ite_add_shift, zero_add] <;>
    by_cases ht : URLChecker.isTrustedDomain (dom ++ str "." ++ suf) = true <;>
    simp only [ht, if_true, Bool.false_eq_true, if_false, eq_self_iff_true] <;>
    (try simp only [if_neg ht]) <;>
    (congr 1) <;> ring

/-- C3 counterexample.  For "http://secure-banking-verify.tk/account" the
analyzer returns risk score 80, not the claimed 100: the triggered
signals are risky TLD +25, four suspicious keywords +40 and non-HTTPS
+15, which sum to 80, below the clamp. -/
theorem banking_url_score_counterexample :
    (URLChecker.analyzeUrlWith URLChecker.bankingURL
        URLChecker.bankingParse).risk_score = 80 ∧
    (80 : Int) ≠ 100 := by
  decide

/-- C3 as amended.  For "http://secure-banking-verify.tk/account" the
analyzer returns risk score 80 (= risky TLD +25, suspicious keywords
`verify`, `account`, `secure`, `banking` +40, non-HTTPS +15; no clamping
occurs since 80 ≤ 100) and marks the URL suspicious. -/
theorem banking_url_scores_eighty :
    (URLChecker.analyzeUrlWith URLChecker.bankingURL
        URLChecker.bankingParse).risk_score = 80 ∧
    (URLChecker.analyzeUrlWith URLChecker.bankingURL
        URLChecker.bankingParse).is_suspicious = true ∧
    URLChecker.checkSuspiciousKeywords (lowerStr URLChecker.bankingURL) =
      [str "verify", str "account", str "secure", str "banking"] ∧
    (URLChecker.analyzeUrlWith URLChecker.bankingURL
        URLChecker.bankingParse).is_https = false ∧
    URLChecker.RISKY_TLDS.any
      (fun tld => tld.isSuffixOf URLChecker.bankingParse.suffix) = true ∧
    URLChecker.urlEarlyScore URLChecker.bankingParse = 15 ∧
    URLChecker.urlLateScore URLChecker.bankingURL URLChecker.bankingParse = 65 := by
  decide

lemma round2_div100 (n : ℤ) : round2 ((n : ℚ) / 100) = (n : ℚ) / 100 := by
  unfold round2
  rw [div_mul_cancel₀ _ (by norm_num : (100 : ℚ) ≠ 0), round_intCast]

/-- C5.  The aggregator: with zero verdicts it returns score 0, level LOW
and empty source/explanation/recommendation lists (and no colour key);
with one verdict (either slot) the overall score is that verdict's score
unmodified (verdict scores are 2-decimal values, the hypothesis
`round2 v.risk_score = v.risk_score`); with two verdicts the overall
score is `call*0.45 + sms*0.55` rounded to 2 decimals, and for scores 75
and 85 it is exactly 80.5. -/
theorem aggregator_zero_one_two_blend :
    (RiskEngine.assessOverallRisk none none =
      { overall_risk_score := 0, risk_level := .LOW, risk_color := none,
        risk_sources := [], explanation := [], recommendations := [] }) ∧
    (∀ v : RiskEngine.RVerdict, round2 v.risk_score = v.risk_score →
      (RiskEngine.assessOverallRisk (some v) none).overall_risk_score = v.risk_score ∧
      (RiskEngine.assessOverallRisk none (some v)).overall_risk_score = v.risk_score) ∧
    (∀ c m : RiskEngine.RVerdict,
      (RiskEngine.assessOverallRisk (some c) (some m)).overall_risk_score =
        round2 (c.risk_score * (45 / 100) + m.risk_score * (55 / 100))) ∧
    (∀ c m : RiskEngine.RVerdict, c.risk_score = 75 → m.risk_score = 85 →
      (RiskEngine.assessOverallRisk (some c) (some m)).overall_risk_score = 161 / 2) := by
  refine ⟨rfl, ?_, ?_, ?_⟩
  · intro v hv
    constructor <;>
      simp [RiskEngine.assessOverallRisk, hv]
  · intro c m
    simp [RiskEngine.assessOverallRisk]
  · intro c m hc hm
    simp [RiskEngine.assessOverallRisk, hc, hm]
    have h : (75 : ℚ) * (45 / 100) + (85 : ℚ) * (55 / 100) = ((8050 : ℤ) : ℚ) / 100 := by
      norm_num
    rw [h, round2_div100]
    norm_num

/-- The aggregator theorem applied at concrete verdicts: a lone verdict
of score 75 passes through unmodified, and scores 75/85 blend to 80.5. -/
theorem aggregator_zero_one_two_blend_witness :
    round2 ((75 : ℚ)) = 75 ∧
    (RiskEngine.assessOverallRisk (some ⟨75, [], []⟩) none).overall_risk_score = 75 ∧
    (RiskEngine.assessOverallRisk (some ⟨75, [], []⟩)
      (some ⟨85, [], []⟩)).overall_risk_score = 161 / 2 := by
  have h75 : round2 ((75 : ℚ)) = 75 := by
    have h : (75 : ℚ) = ((7500 : ℤ) : ℚ) / 100 := by norm_num
    rw [h, round2_div100]
  exact ⟨h75, (aggregator_zero_one_two_blend.2.1 ⟨75, [], []⟩ h75).1,
    aggregator_zero_one_two_blend.2.2.2 ⟨75, [], []⟩ ⟨85, [], []⟩ rfl rfl⟩

lemma isPrefixOf_append_of_eq {α : Type*} [BEq α] [LawfulBEq α] :
    ∀ (l₁ l₂ : List α), l₁.isPrefixOf l₂ = true → ∃ t, l₂ = l₁ ++ t := by
  intro l₁
  induction l₁ with
  | nil => intro l₂ _; exact ⟨l₂, rfl⟩
  | cons a as ih =>
    intro l₂ h
    cases l₂ with
    | nil => simp [List.isPrefixOf] at h
    | cons b bs =>
      simp only [List.isPrefixOf, Bool.and_eq_true, beq_iff_eq] at h
      obtain ⟨hab, h2⟩ := h
      obtain ⟨t, ht⟩ := ih bs h2
      exact ⟨t, by simp [hab, ht]⟩

lemma isPrefixOf_append_self {α : Type*} [BEq α] [LawfulBEq α] :
    ∀ (l t : List α), l.isPrefixOf (l ++ t) = true := by
  intro l t
  induction l with
  | nil => cases t <;> rfl
  | cons a as ih => simp [List.isPrefixOf, ih]

/-- C8.  For every phone number beginning with "+234", a call of duration
8 seconds, frequency 3, from an unknown caller, at night, with no scoring
backend, fires the seven claimed bonuses — unknown (+20),
unknown-and-international (+25), risky country (+30), very short (+15),
repeated-but-not-excessive (+10), suspicious time (+15),
short-and-repeated (+20), totalling 135 — and the verdict is risk score
100 (clamped) at level CRITICAL. -/
theorem nigeria_night_call_is_critical :
    ∀ phone : Str, (str "+234").isPrefixOf phone = true →
      (CallAnalyzer.extractFeatures phone 8 3 true (str "night")).is_unknown = true ∧
      (CallAnalyzer.extractFeatures phone 8 3 true (str "night")).unknown_and_international = true ∧
      (CallAnalyzer.extractFeatures phone 8 3 true (str "night")).is_risky_country = true ∧
      (CallAnalyzer.extractFeatures phone 8 3 true (str "night")).very_short_call = true ∧
      (CallAnalyzer.extractFeatures phone 8 3 true (str "night")).repeated_calls = true ∧
      (CallAnalyzer.extractFeatures phone 8 3 true (str "night")).excessive_calls = false ∧
      (CallAnalyzer.extractFeatures phone 8 3 true (str "night")).suspicious_time = true ∧
      (CallAnalyzer.extractFeatures phone 8 3 true (str "night")).short_and_repeated = true ∧
      (CallAnalyzer.analyzeCall phone 8 3 true (str "night") none).risk_score = 100 ∧
      (CallAnalyzer.analyzeCall phone 8 3 true (str "night") none).risk_level = .CRITICAL ∧
      (CallAnalyzer.analyzeCall phone 8 3 true (str "night") none).is_scam = true := by
  intro phone hpre
  obtain ⟨t, ht⟩ := isPrefixOf_append_of_eq _ _ hpre
  subst ht
  have hcleanApp : CallAnalyzer.cleanPhone (str "+234" ++ t) =
      str "+234" ++ CallAnalyzer.cleanPhone t := by
    unfold CallAnalyzer.cleanPhone
    rw [List.filter_append]
    congr 1
  have hintl : (str "+").isPrefixOf (CallAnalyzer.cleanPhone (str "+234" ++ t)) = true := rfl
  have h234 : (str "+234").isPrefixOf (CallAnalyzer.cleanPhone (str "+234" ++ t)) = true := by
    rw [hcleanApp]
    exact isPrefixOf_append_self _ _
  have hrisky : CallAnalyzer.RISKY_COUNTRY_CODES.any
      (fun code => code.isPrefixOf (CallAnalyzer.cleanPhone (str "+234" ++ t))) = true := by
    simp only [CallAnalyzer.RISKY_COUNTRY_CODES, List.any_cons, List.any_nil, h234,
      Bool.or_true, Bool.true_or]
  have hscore : CallAnalyzer.calculateRuleBasedScore
      (CallAnalyzer.extractFeatures (str "+234" ++ t) 8 3 true (str "night")) = 100 := by
    cases hr : CallAnalyzer.checkRepeatedDigits (CallAnalyzer.cleanPhone (str "+234" ++ t)) <;>
    cases hs : CallAnalyzer.checkSequentialDigits (CallAnalyzer.cleanPhone (str "+234" ++ t)) <;>
    simp only [CallAnalyzer.calculateRuleBasedScore, CallAnalyzer.extractFeatures,
      hr, hs, hintl, hrisky, Bool.true_or, Bool.true_and] <;>
    decide
  refine ⟨rfl, ?_, ?_, rfl, rfl, rfl, rfl, rfl, ?_, ?_, ?_⟩
  · simp only [CallAnalyzer.extractFeatures, hintl, Bool.true_or, Bool.true_and]
  · simp only [CallAnalyzer.extractFeatures]
    exact hrisky
  · simp only [CallAnalyzer.analyzeCall, CallAnalyzer.riskScoreStage, hscore]
    rw [show ((100 : Int) : ℚ) = ((100 : ℤ) : ℚ) from rfl, round2_intCast]
    norm_num
  · simp only [CallAnalyzer.analyzeCall, CallAnalyzer.riskScoreStage, hscore]
    rw [getRiskLevel_eq_CRITICAL_iff]
    norm_num
  · simp only [CallAnalyzer.analyzeCall, CallAnalyzer.riskScoreStage, hscore]
    norm_num

/-- The "+234" night-call theorem applied at the concrete number
"+2345551234". -/
theorem nigeria_night_call_is_critical_witness :
    (str "+234").isPrefixOf (str "+2345551234") = true ∧
    (CallAnalyzer.analyzeCall (str "+2345551234") 8 3 true (str "night") none).risk_score = 100 ∧
    (CallAnalyzer.analyzeCall (str "+2345551234") 8 3 true (str "night") none).risk_level = .CRITICAL := by
  have h : (str "+234").isPrefixOf (str "+2345551234") = true := by decide
  have happ := nigeria_night_call_is_critical (str "+2345551234") h
  exact ⟨h, happ.2.2.2.2.2.2.2.2.1, happ.2.2.2.2.2.2.2.2.2.1⟩

lemma keepFirst_mem {α : Type*} [DecidableEq α] (l : List α) (y : α)
    (h : y ∈ RiskEngine.keepFirstOccurrences l) : y ∈ l := by
  induction l using RiskEngine.keepFirstOccurrences.induct with
  | case1 => simp [RiskEngine.keepFirstOccurrences] at h
  | case2 x xs ih =>
    rw [RiskEngine.keepFirstOccurrences] at h
    rcases List.mem_cons.mp h with h | h
    · exact h ▸ List.mem_cons_self x xs
    · exact List.mem_cons_of_mem x (List.mem_of_mem_filter (ih h))

lemma keepFirst_nodup {α : Type*} [DecidableEq α] (l : List α) :
    (RiskEngine.keepFirstOccurrences l).Nodup := by
  induction l using RiskEngine.keepFirstOccurrences.induct with
  | case1 => simp [RiskEngine.keepFirstOccurrences]
  | case2 x xs ih =>
    rw [RiskEngine.keepFirstOccurrences]
    refine List.nodup_cons.mpr ⟨?_, ih⟩
    intro hx
    have := List.of_mem_filter (keepFirst_mem _ _ hx)
    simp at this

lemma dedup_foldl_go (l acc : List Str) :
    List.foldl (fun acc x => if x ∈ acc then acc else acc ++ [x]) acc l =
      acc ++ RiskEngine.keepFirstOccurrences (l.filter (fun y => decide (y ∉ acc))) := by
  induction l generalizing acc with
  | nil => simp [RiskEngine.keepFirstOccurrences]
  | cons x xs ih =>
    by_cases hx : x ∈ acc
    · simp only [List.foldl_cons, if_pos hx, List.filter_cons]
      have hd : decide (x ∉ acc) = false := by simp [hx]
      rw [hd]
      exact ih acc
    · simp only [List.foldl_cons, if_neg hx, List.filter_cons]
      have hd : decide (x ∉ acc) = true := by simp [hx]
      rw [hd]
      simp only [if_true]
      rw [ih (acc ++ [x]), RiskEngine.keepFirstOccurrences]
      have hfil : xs.filter (fun y => decide (y ∉ acc ++ [x])) =
          (xs.filter (fun y => decide (y ∉ acc))).filter (fun y => y ≠ x) := by
        rw [List.filter_filter]
        apply List.filter_congr
        intro y hy
        by_cases hyx : y = x <;> by_cases hya : y ∈ acc <;>
          simp [hyx, hya, List.mem_append]
      rw [hfil]
      simp

/-- `list(dict.fromkeys(l))` keeps exactly the first occurrence of each
element, in first-seen order. -/
lemma dedupFromKeys_eq_keepFirst (l : List Str) :
    RiskEngine.dedupFromKeys l = RiskEngine.keepFirstOccurrences l := by
  unfold RiskEngine.dedupFromKeys
  rw [dedup_foldl_go]
  simp

/-- C9.  With both verdicts present, the aggregator's recommendation list
is the call recommendations followed by the message recommendations with
duplicates removed keeping only the first occurrence of each string
(`keepFirstOccurrences` drops exactly the later duplicates, and the
result is duplicate-free), truncated to the first 8 entries. -/
theorem aggregator_recommendations_dedup_take8 :
    ∀ c m : RiskEngine.RVerdict,
      (RiskEngine.assessOverallRisk (some c) (some m)).recommendations =
        (RiskEngine.keepFirstOccurrences
          (c.recommendations ++ m.recommendations)).take 8 ∧
      (RiskEngine.keepFirstOccurrences
        (c.recommendations ++ m.recommendations)).Nodup := by
  intro c m
  constructor
  · simp [RiskEngine.assessOverallRisk, dedupFromKeys_eq_keepFirst]
  · exact keepFirst_nodup _

/-- C10.  For every `time_of_day` outside the documented set
{early_morning, business_hours, evening, night}, the call scorer still
succeeds (the embedded function is total) and assigns time risk weight 2,
the same as "evening": the suspicious-time flag is false, the features
coincide with the "evening" features, and the whole verdict equals the
"evening" verdict, so no suspicious-time points are added. -/
theorem unknown_time_of_day_defaults_to_evening_weight :
    ∀ tod : Str, tod ≠ str "early_morning" → tod ≠ str "business_hours" →
      tod ≠ str "evening" → tod ≠ str "night" →
      ∀ (phone : Str) (dur freq : Int) (unk : Bool) (model : Option (Except Str ℚ)),
        (CallAnalyzer.extractFeatures phone dur freq unk tod).time_risk = 2 ∧
        (CallAnalyzer.extractFeatures phone dur freq unk tod).suspicious_time = false ∧
        CallAnalyzer.extractFeatures phone dur freq unk tod =
          CallAnalyzer.extractFeatures phone dur freq unk (str "evening") ∧
        CallAnalyzer.analyzeCall phone dur freq unk tod model =
          CallAnalyzer.analyzeCall phone dur freq unk (str "evening") model := by
  intro tod h1 h2 h3 h4 phone dur freq unk model
  have hfeat : CallAnalyzer.extractFeatures phone dur freq unk tod =
      CallAnalyzer.extractFeatures phone dur freq unk (str "evening") := by
    simp only [CallAnalyzer.extractFeatures, if_neg h1, if_neg h2, if_neg h3, if_neg h4]
    rfl
  refine ⟨?_, ?_, hfeat, ?_⟩
  · simp only [CallAnalyzer.extractFeatures, if_neg h1, if_neg h2, if_neg h3, if_neg h4]
  · simp only [CallAnalyzer.extractFeatures, if_neg h1, if_neg h2, if_neg h3, if_neg h4]
    rfl
  · simp only [CallAnalyzer.analyzeCall, hfeat]

/-- The unknown-time-of-day theorem applied at the concrete category
"noon". -/
theorem unknown_time_of_day_defaults_to_evening_weight_witness :
    (CallAnalyzer.extractFeatures (str "5551234") 120 1 false (str "noon")).time_risk = 2 ∧
    (CallAnalyzer.extractFeatures (str "5551234") 120 1 false (str "noon")).suspicious_time = false ∧
    CallAnalyzer.analyzeCall (str "5551234") 120 1 false (str "noon") none =
      CallAnalyzer.analyzeCall (str "5551234") 120 1 false (str "evening") none := by
  have happ := unknown_time_of_day_defaults_to_evening_weight (str "noon")
    (by decide) (by decide) (by decide) (by decide)
    (str "5551234") 120 1 false none
  exact ⟨happ.1, happ.2.1, happ.2.2.2⟩
